import Mathlib

/-!
Verification of the littlefs Rust adapter layer (src/littlefs/src/lib.rs):
error-code translation, path encoding, the storage callback trampolines,
configuration building, and directory-entry marshalling, shallowly embedded
in Lean.  Machine integers are modelled as Nat/Int with explicit reduction
modulo 2^32 or 2^64 where the Rust arithmetic wraps or casts.
-/

namespace LittleFs

/-! ### Constants

READ_SIZE .. LOOKAHEAD are the adapter constants at the top of lib.rs.
NAME_MAX_LEN and the engine status codes come from the C engine header,
which is a vendored external library outside src/. -/

def READ_SIZE : Nat := 256
def PROG_SIZE : Nat := 256
def BLOCK_SIZE : Nat := 4096
def BLOCK_COUNT : Nat := 32
def LOOKAHEAD : Nat := 128

/-- Modelled from the spec: the engine constant LFS_NAME_MAX (maximum name
length); the engine header defining it is not under src/. -/
def NAME_MAX_LEN : Nat := 255

/-- Modelled from the spec: engine status codes, signed integers where
negative values are errors (IO=-5, CORRUPT=-84, NOENT=-2, EXIST=-17,
NOTDIR=-20, ISDIR=-21, NOTEMPTY=-39, BADF=-9, FBIG=-27, INVAL=-22,
NOSPC=-28, NOMEM=-12); the engine header is not under src/. -/
def LFS_ERR_IO : Int := -5
def LFS_ERR_CORRUPT : Int := -84
def LFS_ERR_NOENT : Int := -2
def LFS_ERR_EXIST : Int := -17
def LFS_ERR_NOTDIR : Int := -20
def LFS_ERR_ISDIR : Int := -21
def LFS_ERR_NOTEMPTY : Int := -39
def LFS_ERR_BADF : Int := -9
def LFS_ERR_FBIG : Int := -27
def LFS_ERR_INVAL : Int := -22
def LFS_ERR_NOSPC : Int := -28
def LFS_ERR_NOMEM : Int := -12

/-- The closed error taxonomy of the adapter (enum FsError in lib.rs). -/
inductive FsError where
  | Io
  | Corrupt
  | Noent
  | Exist
  | NotDir
  | IsDir
  | NotEmpty
  | Badf
  | FBig
  | Inval
  | Nospc
  | Nomem
deriving DecidableEq, Repr

/-! ### ErrorTranslator (lib.rs lines 41-77)

Both translators match the twelve engine error constants; everything else
falls into the final catch-all arm.  `lfs_to_usize_fserror` returns the
remaining value cast `as usize`, modelled as reduction modulo 2^64. -/

def lfs_to_fserror (lfs_error : Int) : Except FsError Unit :=
  if lfs_error = LFS_ERR_IO then .error .Io
  else if lfs_error = LFS_ERR_CORRUPT then .error .Corrupt
  else if lfs_error = LFS_ERR_NOENT then .error .Noent
  else if lfs_error = LFS_ERR_EXIST then .error .Exist
  else if lfs_error = LFS_ERR_NOTDIR then .error .NotDir
  else if lfs_error = LFS_ERR_ISDIR then .error .IsDir
  else if lfs_error = LFS_ERR_NOTEMPTY then .error .NotEmpty
  else if lfs_error = LFS_ERR_BADF then .error .Badf
  else if lfs_error = LFS_ERR_FBIG then .error .FBig
  else if lfs_error = LFS_ERR_INVAL then .error .Inval
  else if lfs_error = LFS_ERR_NOSPC then .error .Nospc
  else if lfs_error = LFS_ERR_NOMEM then .error .Nomem
  else .ok ()

def lfs_to_usize_fserror (lfs_error : Int) : Except FsError Nat :=
  if lfs_error = LFS_ERR_IO then .error .Io
  else if lfs_error = LFS_ERR_CORRUPT then .error .Corrupt
  else if lfs_error = LFS_ERR_NOENT then .error .Noent
  else if lfs_error = LFS_ERR_EXIST then .error .Exist
  else if lfs_error = LFS_ERR_NOTDIR then .error .NotDir
  else if lfs_error = LFS_ERR_ISDIR then .error .IsDir
  else if lfs_error = LFS_ERR_NOTEMPTY then .error .NotEmpty
  else if lfs_error = LFS_ERR_BADF then .error .Badf
  else if lfs_error = LFS_ERR_FBIG then .error .FBig
  else if lfs_error = LFS_ERR_INVAL then .error .Inval
  else if lfs_error = LFS_ERR_NOSPC then .error .Nospc
  else if lfs_error = LFS_ERR_NOMEM then .error .Nomem
  else .ok ((lfs_error % (2 ^ 64 : Int)).toNat)

/-- The twelve recognized engine error codes. -/
def recognizedCodes : List Int :=
  [ LFS_ERR_IO, LFS_ERR_CORRUPT, LFS_ERR_NOENT, LFS_ERR_EXIST, LFS_ERR_NOTDIR,
   LFS_ERR_ISDIR, LFS_ERR_NOTEMPTY, LFS_ERR_BADF, LFS_ERR_FBIG, LFS_ERR_INVAL,
   LFS_ERR_NOSPC, LFS_ERR_NOMEM]

/-! ### PathEncoder

Each path-taking operation of LittleFs declares a local zero-filled byte
buffer and copies a prefix of the path into it with
`cstr[..len].copy_from_slice(&path.as_bytes()[..len])`.  A buffer is a
`List Nat` of byte values; `copy_into buf src len` models the
copy-into-prefix operation. -/

def copy_into (buf src : List Nat) (len : Nat) : List Nat :=
  src.take len ++ buf.drop len

/-- Path encoding of `remove` (lib.rs lines 213-220): buffer
`[0u8; NAME_MAX_LEN + 1]`, copy length `min(NAME_MAX_LEN, path.len())`. -/
def remove_encode (path : List Nat) : List Nat :=
  let cstr := List.replicate (NAME_MAX_LEN + 1) 0
  let len := min NAME_MAX_LEN path.length
  copy_into cstr path len

/-- Path encoding of the source path of `rename` (lib.rs lines 223-238). -/
def rename_encode_old (old_path : List Nat) : List Nat :=
  let oldpath := List.replicate (NAME_MAX_LEN + 1) 0
  let oldpathlen := min NAME_MAX_LEN old_path.length
  copy_into oldpath old_path oldpathlen

/-- Path encoding of the destination path of `rename` (lib.rs lines 223-238). -/
def rename_encode_new (new_path : List Nat) : List Nat :=
  let newpath := List.replicate (NAME_MAX_LEN + 1) 0
  let newpathlen := min NAME_MAX_LEN new_path.length
  copy_into newpath new_path newpathlen

/-- Path encoding of `stat` (lib.rs lines 241-258). -/
def stat_encode (path : List Nat) : List Nat :=
  let cstr := List.replicate (NAME_MAX_LEN + 1) 0
  let len := min NAME_MAX_LEN path.length
  copy_into cstr path len

/-- Path encoding of `mkdir` (lib.rs lines 360-368). -/
def mkdir_encode (path : List Nat) : List Nat :=
  let cstr_path := List.replicate (NAME_MAX_LEN + 1) 0
  let len := min NAME_MAX_LEN path.length
  copy_into cstr_path path len

/-- Path encoding of `dir_open` (lib.rs lines 371-384). -/
def dir_open_encode (path : List Nat) : List Nat :=
  let cstr_path := List.replicate (NAME_MAX_LEN + 1) 0
  let len := min NAME_MAX_LEN path.length
  copy_into cstr_path path len

/-- Path encoding of `file_open` (lib.rs lines 261-283): unlike the other
path operations its buffer is `[0u8; NAME_MAX_LEN]` and its copy length is
`min(NAME_MAX_LEN - 1, path.len())`. -/
def file_open_encode (path : List Nat) : List Nat :=
  let cstr_path := List.replicate NAME_MAX_LEN 0
  let len := min (NAME_MAX_LEN - 1) path.length
  copy_into cstr_path path len

/-! ### Storage and the callback trampolines (lib.rs 438-489)

The Storage trait is a record of three fallible operations.  Each
trampoline recovers the adapter from the context, computes a byte offset
and forwards to storage; `.unwrap()` on the storage result is modelled as
`none` (a panic aborting the call), and a normal return carries the status
code handed back to the engine.  `block`, `off` and `block_size` are u32
in the C ABI, so the offset arithmetic wraps modulo 2^32. -/

structure Storage where
  read : Nat → Nat → Except FsError Nat
  write : Nat → List Nat → Except FsError Nat
  erase : Nat → Nat → Except FsError Nat

def U32 : Nat := 2 ^ 32

/-- Trampoline lfs_config_read (lib.rs 438-454): absolute offset
`block * block_size + off` in u32 arithmetic, destination region of
exactly `size` bytes, status 0 on success. -/
def lfs_config_read (s : Storage) (block_size block off size : Nat) :
    Option Int :=
  let abs_off := (block * block_size + off) % U32
  match s.read abs_off size with
  | .ok _ => some 0
  | .error _ => none

/-- Trampoline lfs_config_prog (lib.rs 456-472): same address computation,
source region of exactly `size` bytes starting at the engine's buffer,
status 0 on success. -/
def lfs_config_prog (s : Storage) (block_size block off : Nat)
    (buffer : Nat → Nat) (size : Nat) : Option Int :=
  let abs_off := (block * block_size + off) % U32
  match s.write abs_off ((List.range size).map buffer) with
  | .ok _ => some 0
  | .error _ => none

/-- Trampoline lfs_config_erase (lib.rs 474-484): offset
`block as usize * BLOCK_SIZE` in usize arithmetic, erase length
BLOCK_SIZE, status 0 on success. -/
def lfs_config_erase (s : Storage) (block : Nat) : Option Int :=
  let off := block * BLOCK_SIZE
  match s.erase off BLOCK_SIZE with
  | .ok _ => some 0
  | .error _ => none

/-- Trampoline lfs_config_sync (lib.rs 486-489): does nothing, returns 0. -/
def lfs_config_sync : Int := 0

/-! ### ConfigBuilder (lib.rs 419-436) and format/mount (lib.rs 193-204)

Raw addresses are modelled as opaque Nat tokens carried by a HandleAddrs
record: the address of the LittleFs value itself and of its three buffers.
Callback pointers are `Option CallbackId`, `some` being non-null.  The
engine entry points invoked by format/mount are abstracted as functions
from the configuration they receive to the status they return. -/

inductive CallbackId where
  | read
  | prog
  | erase
  | sync
deriving DecidableEq, Repr

structure HandleAddrs where
  selfAddr : Nat
  readBufAddr : Nat
  progBufAddr : Nat
  lookaheadBufAddr : Nat

structure LfsConfig where
  context : Nat
  read : Option CallbackId
  prog : Option CallbackId
  erase : Option CallbackId
  sync : Option CallbackId
  read_size : Nat
  prog_size : Nat
  block_size : Nat
  block_count : Nat
  lookahead : Nat
  read_buffer : Nat
  prog_buffer : Nat
  lookahead_buffer : Nat
  file_buffer : Option Nat

/-- create_lfs_config (lib.rs 419-436). -/
def create_lfs_config (h : HandleAddrs) : LfsConfig where
  context := h.selfAddr
  read := some .read
  prog := some .prog
  erase := some .erase
  sync := some .sync
  read_size := READ_SIZE
  prog_size := PROG_SIZE
  block_size := BLOCK_SIZE
  block_count := BLOCK_COUNT
  lookahead := LOOKAHEAD
  read_buffer := h.readBufAddr
  prog_buffer := h.progBufAddr
  lookahead_buffer := h.lookaheadBufAddr
  file_buffer := none

/-- format (lib.rs 193-197): rebuilds the configuration, stores it in the
handle (first component) and invokes the engine's format entry with it. -/
def format (h : HandleAddrs) (engine_format : LfsConfig → Int) :
    LfsConfig × Except FsError Unit :=
  let cfg := create_lfs_config h
  (cfg, lfs_to_fserror (engine_format cfg))

/-- mount (lib.rs 200-204): rebuilds the configuration, stores it in the
handle and invokes the engine's mount entry with it. -/
def mount (h : HandleAddrs) (engine_mount : LfsConfig → Int) :
    LfsConfig × Except FsError Unit :=
  let cfg := create_lfs_config h
  (cfg, lfs_to_fserror (engine_mount cfg))

/-! ### File-handle argument modes (lib.rs 286-357)

Whether an operation consumes the File (takes it by value) or borrows it
(`&mut File`) is part of its Rust signature; a consumed handle admits no
further operation.  Also recorded: which engine entry point each of
file_close and file_sync invokes. -/

inductive HandleArgMode where
  | consumes
  | borrows
deriving DecidableEq, Repr

inductive EngineEntry where
  | fileClose
  | fileSync
deriving DecidableEq, Repr

/-- file_close (lib.rs 286-289) takes `mut file: File` by value. -/
def file_close_file_arg : HandleArgMode := .consumes

/-- file_sync (lib.rs 292-295) takes `mut file: File` by value. -/
def file_sync_file_arg : HandleArgMode := .consumes

/-- file_read (lib.rs 298-308) takes `file: &mut File`. -/
def file_read_file_arg : HandleArgMode := .borrows

/-- file_write (lib.rs 311-321) takes `file: &mut File`. -/
def file_write_file_arg : HandleArgMode := .borrows

def file_close_entry : EngineEntry := .fileClose

def file_sync_entry : EngineEntry := .fileSync

/-! ### Directory-entry marshalling (lib.rs 85-138)

`From<lfs::lfs_info> for Info`: the engine record carries a type tag, a
size and a zero-terminated name buffer.  An unknown tag hits
`unreachable!()` and the name copy panics if the measured length exceeds
the Info name array; both panics are modelled as `none`.  The source reads
the name bytes back through a reinterpreted raw pointer; the model keeps
the intended byte copy of the zero-terminated prefix. -/

/-- Modelled from the spec: the engine's directory-entry type tags REG and
DIR (two distinct byte values); the engine header defining them is not
under src/. -/
def LFS_TYPE_REG : Nat := 0x11
def LFS_TYPE_DIR : Nat := 0x22

inductive EntryType where
  | RegularFile
  | Directory
deriving DecidableEq, Repr

structure LfsInfoRec where
  type_ : Nat
  size : Nat
  name : List Nat
deriving DecidableEq, Repr

structure Info where
  entry_type : EntryType
  size : Nat
  name : List Nat
deriving DecidableEq, Repr

/-- strlen (lib.rs 97-114): length of the prefix before the first 0. -/
def strlen : List Nat → Nat
  | [] => 0
  | b :: rest => if b = 0 then 0 else strlen rest + 1

/-- The tag match of the From conversion (lib.rs 119-125): REG and DIR map
to their entry types, anything else hits `unreachable!()` (none). -/
def entry_type_of_tag (t : Nat) : Option EntryType :=
  if t = LFS_TYPE_REG then some EntryType.RegularFile
  else if t = LFS_TYPE_DIR then some EntryType.Directory
  else none

/-- The From conversion (lib.rs 117-138). -/
def info_from_lfs (r : LfsInfoRec) : Option Info :=
  match entry_type_of_tag r.type_ with
  | none => none
  | some et =>
    let len := strlen r.name
    if len ≤ NAME_MAX_LEN then
      some { entry_type := et, size := r.size,
             name := copy_into (List.replicate NAME_MAX_LEN 0) r.name len }
    else none

/-- The out-parameter flow of stat (lib.rs 241-258): `*info` is replaced by
the conversion of the engine record before the status is translated; the
conversion's panic is `none`. -/
def stat_info_update (info : Info) (res : Int) (lfs_info : LfsInfoRec) :
    Option (Info × Except FsError Unit) :=
  match info_from_lfs lfs_info with
  | some i => some (i, lfs_to_fserror res)
  | none => none

/-- The out-parameter flow of dir_read (lib.rs 393-398), identical to
stat's. -/
def dir_read_info_update (info : Info) (res : Int) (lfs_info : LfsInfoRec) :
    Option (Info × Except FsError Unit) :=
  match info_from_lfs lfs_info with
  | some i => some (i, lfs_to_fserror res)
  | none => none

/-! ### A functional model of the engine's file operations

Modelled from the spec: the engine entry points lfs_file_opencfg,
lfs_file_write, lfs_file_read and lfs_file_close live in the vendored C
library, not under src/.  The filesystem content is an association list
from encoded path to byte payload; an open file carries its path, its
data and a cursor.  Open flags follow the FileOpenFlags bit-set of
lib.rs 140-150 as a record of booleans. -/

structure FileOpenFlags where
  rd : Bool
  wr : Bool
  creat : Bool
  excl : Bool
  trunc : Bool
  append : Bool
deriving DecidableEq, Repr

abbrev EngineFs := List (List Nat × List Nat)

structure EngineFile where
  path : List Nat
  data : List Nat
  pos : Nat
deriving DecidableEq, Repr

def fsLookup : EngineFs → List Nat → Option (List Nat)
  | [], _ => none
  | (q, d) :: rest, p => if p = q then some d else fsLookup rest p

def fsStore : EngineFs → List Nat → List Nat → EngineFs
  | [], p, d => [(p, d)]
  | (q, e) :: rest, p, d =>
    if p = q then (p, d) :: rest else (q, e) :: fsStore rest p d

/-- Modelled from the spec: lfs_file_opencfg.  Create|Exclusive fails with
Exist on an existing path; Create creates a missing path empty; opening a
missing path without Create fails with Noent; Truncate discards existing
content; the cursor starts at 0. -/
def lfs_file_opencfg (fs : EngineFs) (p : List Nat) (fl : FileOpenFlags) :
    Except FsError (EngineFs × EngineFile) :=
  match fsLookup fs p with
  | some d =>
    if fl.creat && fl.excl then .error .Exist
    else .ok (fs, { path := p, data := if fl.trunc then [] else d, pos := 0 })
  | none =>
    if fl.creat then
      .ok (fsStore fs p [], { path := p, data := [], pos := 0 })
    else .error .Noent

/-- Modelled from the spec: lfs_file_write overwrites at the cursor,
extending the file, and returns the byte count written. -/
def lfs_file_write (f : EngineFile) (buf : List Nat) : EngineFile × Nat :=
  ({ path := f.path,
     data := f.data.take f.pos ++ buf ++ f.data.drop (f.pos + buf.length),
     pos := f.pos + buf.length }, buf.length)

/-- Modelled from the spec: lfs_file_read yields up to `cap` bytes from the
cursor and advances it. -/
def lfs_file_read (f : EngineFile) (cap : Nat) : EngineFile × List Nat :=
  let out := (f.data.drop f.pos).take cap
  ({ path := f.path, data := f.data, pos := f.pos + out.length }, out)

/-- Modelled from the spec: lfs_file_close flushes the file's buffered
content back into the filesystem. -/
def lfs_file_close (fs : EngineFs) (f : EngineFile) : EngineFs :=
  fsStore fs f.path f.data

/-- Adapter file_open (lib.rs 261-283): encodes the path with its local
buffer and forwards to the engine open. -/
def file_open (fs : EngineFs) (path : List Nat) (fl : FileOpenFlags) :
    Except FsError (EngineFs × EngineFile) :=
  lfs_file_opencfg fs (file_open_encode path) fl

def flagsCreatRdwr : FileOpenFlags :=
  { rd := true, wr := true, creat := true, excl := false, trunc := false,
    append := false }

def flagsRdwr : FileOpenFlags :=
  { rd := true, wr := true, creat := false, excl := false, trunc := false,
    append := false }

/-- The write-then-read round trip of spec section 8 on a freshly
formatted filesystem: open with Create|ReadWrite, write the payload,
close, reopen with ReadWrite, read back up to `cap` bytes. -/
def write_read_round_trip (p b : List Nat) (cap : Nat) : Option (List Nat) :=
  match file_open [] p flagsCreatRdwr with
  | .error _ => none
  | .ok (fs1, f1) =>
    let wr := lfs_file_write f1 b
    let fs2 := lfs_file_close fs1 wr.1
    match file_open fs2 p flagsRdwr with
    | .error _ => none
    | .ok (_, f3) => some (lfs_file_read f3 cap).2

/-- Closed form of the copy-into-zero-buffer encoding. -/
lemma copy_into_replicate (n : Nat) (p : List Nat) (len : Nat) :
    copy_into (List.replicate n 0) p len =
      p.take len ++ List.replicate (n - len) 0 := by
  simp [copy_into, List.drop_replicate]

lemma remove_encode_eq (p : List Nat) :
    remove_encode p =
      p.take (min NAME_MAX_LEN p.length) ++
        List.replicate (NAME_MAX_LEN + 1 - min NAME_MAX_LEN p.length) 0 :=
  copy_into_replicate _ _ _

lemma file_open_encode_eq (p : List Nat) :
    file_open_encode p =
      p.take (min (NAME_MAX_LEN - 1) p.length) ++
        List.replicate (NAME_MAX_LEN - min (NAME_MAX_LEN - 1) p.length) 0 :=
  copy_into_replicate _ _ _

lemma remove_encode_length (p : List Nat) :
    (remove_encode p).length = NAME_MAX_LEN + 1 := by
  rw [remove_encode_eq]
  simp [List.length_take]

lemma file_open_encode_length (p : List Nat) :
    (file_open_encode p).length = NAME_MAX_LEN := by
  rw [file_open_encode_eq]
  simp [List.length_take, NAME_MAX_LEN]

/-- Everything beyond the copied prefix of the remove-style encoding is the
untouched zero fill. -/
lemma remove_encode_drop (p : List Nat) :
    (remove_encode p).drop (min NAME_MAX_LEN p.length) =
      List.replicate (NAME_MAX_LEN + 1 - min NAME_MAX_LEN p.length) 0 := by
  rw [remove_encode_eq]
  have h : (p.take (min NAME_MAX_LEN p.length)).length =
      min NAME_MAX_LEN p.length := by
    simp [List.length_take]
  exact List.drop_left' h

/-- Everything beyond the copied prefix of the file_open encoding is the
untouched zero fill. -/
lemma file_open_encode_drop (p : List Nat) :
    (file_open_encode p).drop (min (NAME_MAX_LEN - 1) p.length) =
      List.replicate (NAME_MAX_LEN - min (NAME_MAX_LEN - 1) p.length) 0 := by
  rw [file_open_encode_eq]
  have h : (p.take (min (NAME_MAX_LEN - 1) p.length)).length =
      min (NAME_MAX_LEN - 1) p.length := by
    simp [List.length_take]
  exact List.drop_left' h

/-- Unfolding membership in the recognized-code list to twelve inequalities. -/
lemma not_recognized_iff (e : Int) :
    e ∉ recognizedCodes ↔
      e ≠ LFS_ERR_IO ∧ e ≠ LFS_ERR_CORRUPT ∧ e ≠ LFS_ERR_NOENT ∧
      e ≠ LFS_ERR_EXIST ∧ e ≠ LFS_ERR_NOTDIR ∧ e ≠ LFS_ERR_ISDIR ∧
      e ≠ LFS_ERR_NOTEMPTY ∧ e ≠ LFS_ERR_BADF ∧ e ≠ LFS_ERR_FBIG ∧
      e ≠ LFS_ERR_INVAL ∧ e ≠ LFS_ERR_NOSPC ∧ e ≠ LFS_ERR_NOMEM := by
  simp only [recognizedCodes, List.mem_cons, List.not_mem_nil, or_false, not_or]

/-- The catch-all arm of lfs_to_fserror: every code outside the twelve maps
to success. -/
lemma lfs_to_fserror_catchall (e : Int) (h : e ∉ recognizedCodes) :
    lfs_to_fserror e = .ok () := by
  obtain ⟨h1, h2, h3, h4, h5, h6, h7, h8, h9, h10, h11, h12⟩ :=
    (not_recognized_iff e).mp h
  simp only [lfs_to_fserror]
  rw [if_neg h1, if_neg h2, if_neg h3, if_neg h4, if_neg h5, if_neg h6,
    if_neg h7, if_neg h8, if_neg h9, if_neg h10, if_neg h11, if_neg h12]

/-- The catch-all arm of lfs_to_usize_fserror: every code outside the twelve
maps to success, carrying the code cast to usize. -/
lemma lfs_to_usize_fserror_catchall (e : Int) (h : e ∉ recognizedCodes) :
    lfs_to_usize_fserror e = .ok ((e % (2 ^ 64 : Int)).toNat) := by
  obtain ⟨h1, h2, h3, h4, h5, h6, h7, h8, h9, h10, h11, h12⟩ :=
    (not_recognized_iff e).mp h
  simp only [lfs_to_usize_fserror]
  rw [if_neg h1, if_neg h2, if_neg h3, if_neg h4, if_neg h5, if_neg h6,
    if_neg h7, if_neg h8, if_neg h9, if_neg h10, if_neg h11, if_neg h12]

/-- A non-negative code is never one of the twelve (all twelve are negative). -/
lemma nonneg_not_recognized (e : Int) (he : 0 ≤ e) : e ∉ recognizedCodes := by
  rw [not_recognized_iff]
  simp only [ LFS_ERR_IO, LFS_ERR_CORRUPT, LFS_ERR_NOENT, LFS_ERR_EXIST,
    LFS_ERR_NOTDIR, LFS_ERR_ISDIR, LFS_ERR_NOTEMPTY, LFS_ERR_BADF,
    LFS_ERR_FBIG, LFS_ERR_INVAL, LFS_ERR_NOSPC, LFS_ERR_NOMEM]
  omega

end LittleFs

namespace LittleFs

/-- Claim C1 counterexample: the code -1 is negative and outside the twelve
enumerated codes, yet lfs_to_fserror returns Ok(()) for it and
lfs_to_usize_fserror returns Ok((-1) as usize) = Ok(2^64-1): the catch-all
arm of both translators silently treats unrecognized negative codes as
success, contradicting the claim. -/
theorem c1_counterexample :
    ((-1 : Int) < 0 ∧ (-1 : Int) ∉ recognizedCodes) ∧
    lfs_to_fserror (-1) = .ok () ∧
    lfs_to_usize_fserror (-1) = .ok (2 ^ 64 - 1) := by
  refine ⟨⟨by norm_num, ?_⟩, rfl, ?_⟩
  · rw [not_recognized_iff]
    refine ⟨?_, ?_, ?_, ?_, ?_, ?_, ?_, ?_, ?_, ?_, ?_, ?_⟩ <;> norm_num
      [ LFS_ERR_IO, LFS_ERR_CORRUPT, LFS_ERR_NOENT, LFS_ERR_EXIST,
       LFS_ERR_NOTDIR, LFS_ERR_ISDIR, LFS_ERR_NOTEMPTY, LFS_ERR_BADF,
       LFS_ERR_FBIG, LFS_ERR_INVAL, LFS_ERR_NOSPC, LFS_ERR_NOMEM]
  · show lfs_to_usize_fserror (-1) = .ok (2 ^ 64 - 1)
    norm_num [lfs_to_usize_fserror, LFS_ERR_IO, LFS_ERR_CORRUPT,
      LFS_ERR_NOENT, LFS_ERR_EXIST, LFS_ERR_NOTDIR, LFS_ERR_ISDIR,
      LFS_ERR_NOTEMPTY, LFS_ERR_BADF, LFS_ERR_FBIG, LFS_ERR_INVAL,
      LFS_ERR_NOSPC, LFS_ERR_NOMEM]
    rfl

/-- Claim C1 (amended): the translator maps each of the twelve enumerated
negative codes to its FsError kind and every non-negative code to success,
but every code outside the twelve — negative or not — falls into the same
catch-all: lfs_to_fserror returns Ok(()) and lfs_to_usize_fserror returns
Ok(code cast to usize) for it. -/
theorem c1_translator (e : Int) :
    (lfs_to_fserror LFS_ERR_IO = .error .Io ∧
     lfs_to_fserror LFS_ERR_CORRUPT = .error .Corrupt ∧
     lfs_to_fserror LFS_ERR_NOENT = .error .Noent ∧
     lfs_to_fserror LFS_ERR_EXIST = .error .Exist ∧
     lfs_to_fserror LFS_ERR_NOTDIR = .error .NotDir ∧
     lfs_to_fserror LFS_ERR_ISDIR = .error .IsDir ∧
     lfs_to_fserror LFS_ERR_NOTEMPTY = .error .NotEmpty ∧
     lfs_to_fserror LFS_ERR_BADF = .error .Badf ∧
     lfs_to_fserror LFS_ERR_FBIG = .error .FBig ∧
     lfs_to_fserror LFS_ERR_INVAL = .error .Inval ∧
     lfs_to_fserror LFS_ERR_NOSPC = .error .Nospc ∧
     lfs_to_fserror LFS_ERR_NOMEM = .error .Nomem) ∧
    (0 ≤ e → lfs_to_fserror e = .ok () ∧
      lfs_to_usize_fserror e = .ok ((e % (2 ^ 64 : Int)).toNat)) ∧
    (e ∉ recognizedCodes → lfs_to_fserror e = .ok () ∧
      lfs_to_usize_fserror e = .ok ((e % (2 ^ 64 : Int)).toNat)) := by
  refine ⟨⟨rfl, rfl, rfl, rfl, rfl, rfl, rfl, rfl, rfl, rfl, rfl, rfl⟩, ?_, ?_⟩
  · intro he
    have h := nonneg_not_recognized e he
    exact ⟨lfs_to_fserror_catchall e h, lfs_to_usize_fserror_catchall e h⟩
  · intro h
    exact ⟨lfs_to_fserror_catchall e h, lfs_to_usize_fserror_catchall e h⟩

/-- Witness for c1_translator at the concrete code 7 (non-negative),
discharging the hypotheses there. -/
theorem c1_witness :
    lfs_to_fserror 7 = .ok () ∧ lfs_to_usize_fserror 7 = .ok 7 := by
  have h := (c1_translator 7).2.1 (by norm_num)
  refine ⟨h.1, ?_⟩
  rw [h.2]
  norm_num
  rfl

/-- Claim C2 counterexample: on a path of NAME_MAX_LEN bytes of 0x61,
file_open does not encode identically to remove: its buffer has
NAME_MAX_LEN bytes, not NAME_MAX_LEN+1, and it copies only
min(NAME_MAX_LEN-1, path.len()) = NAME_MAX_LEN-1 bytes, so the byte at
index NAME_MAX_LEN-1 is 0 where the path has 0x61. -/
theorem c2_counterexample :
    file_open_encode (List.replicate NAME_MAX_LEN 97) ≠
      remove_encode (List.replicate NAME_MAX_LEN 97) ∧
    (file_open_encode (List.replicate NAME_MAX_LEN 97)).length ≠
      NAME_MAX_LEN + 1 ∧
    (file_open_encode (List.replicate NAME_MAX_LEN 97)).getD
      (NAME_MAX_LEN - 1) 99 = 0 ∧
    (List.replicate NAME_MAX_LEN 97).getD (NAME_MAX_LEN - 1) 99 = 97 := by
  refine ⟨?_, ?_, ?_, ?_⟩
  · intro h
    have hl := congrArg List.length h
    rw [remove_encode_length, file_open_encode_length] at hl
    omega
  · rw [file_open_encode_length]
    omega
  · have hd := file_open_encode_drop (List.replicate NAME_MAX_LEN 97)
    rw [List.length_replicate] at hd
    have hmin : min (NAME_MAX_LEN - 1) NAME_MAX_LEN = NAME_MAX_LEN - 1 := by
      omega
    have h1 : NAME_MAX_LEN - (NAME_MAX_LEN - 1) = 1 := by
      norm_num [NAME_MAX_LEN]
    rw [hmin, h1] at hd
    have hq := List.getElem?_drop
      (file_open_encode (List.replicate NAME_MAX_LEN 97)) (NAME_MAX_LEN - 1) 0
    rw [hd, Nat.add_zero] at hq
    rw [List.getD_eq_getElem?_getD, ← hq]
    rfl
  · rw [List.getD_eq_getElem?_getD, List.getElem?_replicate]
    have h0 : NAME_MAX_LEN - 1 < NAME_MAX_LEN := by norm_num [NAME_MAX_LEN]
    rw [if_pos h0]
    rfl

/-- Claim C2 (amended): remove, both paths of rename, mkdir, stat and
dir_open encode identically — each copies exactly
min(NAME_MAX_LEN, path.len()) bytes of the path into a zero-filled buffer
of NAME_MAX_LEN+1 bytes — but file_open instead copies
min(NAME_MAX_LEN-1, path.len()) bytes into a zero-filled buffer of
NAME_MAX_LEN bytes, truncating an oversized path to NAME_MAX_LEN-1 bytes. -/
theorem c2_path_encoding (p : List Nat) :
    rename_encode_old p = remove_encode p ∧
    rename_encode_new p = remove_encode p ∧
    mkdir_encode p = remove_encode p ∧
    stat_encode p = remove_encode p ∧
    dir_open_encode p = remove_encode p ∧
    remove_encode p =
      p.take (min NAME_MAX_LEN p.length) ++
        List.replicate (NAME_MAX_LEN + 1 - min NAME_MAX_LEN p.length) 0 ∧
    file_open_encode p =
      p.take (min (NAME_MAX_LEN - 1) p.length) ++
        List.replicate (NAME_MAX_LEN - min (NAME_MAX_LEN - 1) p.length) 0 :=
  ⟨rfl, rfl, rfl, rfl, rfl, remove_encode_eq p, file_open_encode_eq p⟩

/-- Claim C6: for every input path, every path-taking operation's encoding
stays inside its fixed local buffer (the copy range is within both the path
and the buffer, and the result has exactly the buffer's length) and the
whole region after the copied content is zero fill of positive length, so
the name handed to the engine is always zero-terminated. -/
theorem c6_encoding_safety (p : List Nat) :
    (min NAME_MAX_LEN p.length ≤ p.length ∧
     min NAME_MAX_LEN p.length ≤ NAME_MAX_LEN + 1 ∧
     (remove_encode p).length = NAME_MAX_LEN + 1 ∧
     (remove_encode p).drop (min NAME_MAX_LEN p.length) =
       List.replicate (NAME_MAX_LEN + 1 - min NAME_MAX_LEN p.length) 0 ∧
     min NAME_MAX_LEN p.length < (remove_encode p).length) ∧
    (rename_encode_old p = remove_encode p ∧
     rename_encode_new p = remove_encode p ∧
     mkdir_encode p = remove_encode p ∧
     stat_encode p = remove_encode p ∧
     dir_open_encode p = remove_encode p) ∧
    (min (NAME_MAX_LEN - 1) p.length ≤ p.length ∧
     min (NAME_MAX_LEN - 1) p.length ≤ NAME_MAX_LEN ∧
     (file_open_encode p).length = NAME_MAX_LEN ∧
     (file_open_encode p).drop (min (NAME_MAX_LEN - 1) p.length) =
       List.replicate (NAME_MAX_LEN - min (NAME_MAX_LEN - 1) p.length) 0 ∧
     min (NAME_MAX_LEN - 1) p.length < (file_open_encode p).length) := by
  refine ⟨⟨min_le_right _ _, ?_, remove_encode_length p, remove_encode_drop p, ?_⟩,
    ⟨rfl, rfl, rfl, rfl, rfl⟩,
    ⟨min_le_right _ _, ?_, file_open_encode_length p, file_open_encode_drop p, ?_⟩⟩
  · have := min_le_left NAME_MAX_LEN p.length
    omega
  · rw [remove_encode_length]
    have := min_le_left NAME_MAX_LEN p.length
    omega
  · have := min_le_left (NAME_MAX_LEN - 1) p.length
    omega
  · rw [file_open_encode_length]
    have h := min_le_left (NAME_MAX_LEN - 1) p.length
    have h0 : 0 < NAME_MAX_LEN := by norm_num [NAME_MAX_LEN]
    omega

/-- Claim C3 counterexample: file_sync takes the File by value in its Rust
signature, exactly like file_close, so a successful file_sync consumes the
handle: the FileHandle does not remain usable, and file_close is not the
only operation that consumes it. -/
theorem c3_counterexample :
    file_sync_file_arg ≠ HandleArgMode.borrows ∧
    file_sync_file_arg = file_close_file_arg := by
  refine ⟨?_, rfl⟩
  decide

/-- Claim C3 (amended): file_sync invokes the engine's sync entry point,
not the close entry (on the engine side it flushes without closing), but
its Rust signature takes the File by value just as file_close does, so the
handle is consumed by file_sync and no subsequent file_read, file_write or
file_close on it is possible; file_read and file_write borrow the handle. -/
theorem c3_file_sync :
    file_sync_entry = EngineEntry.fileSync ∧
    file_sync_entry ≠ EngineEntry.fileClose ∧
    file_sync_file_arg = HandleArgMode.consumes ∧
    file_close_file_arg = HandleArgMode.consumes ∧
    file_read_file_arg = HandleArgMode.borrows ∧
    file_write_file_arg = HandleArgMode.borrows :=
  ⟨rfl, by decide, rfl, rfl, rfl, rfl⟩

/-- Claim C4: each trampoline either aborts fatally (a storage error hits
`.unwrap()`, modelled `none`) or returns 0; no trampoline ever returns a
nonzero status to the engine, and a storage error always aborts. -/
theorem c4_trampoline_fatal (s : Storage) (block_size block off size : Nat)
    (buffer : Nat → Nat) :
    (lfs_config_read s block_size block off size = none ∨
     lfs_config_read s block_size block off size = some 0) ∧
    (∀ e, s.read ((block * block_size + off) % U32) size = .error e →
      lfs_config_read s block_size block off size = none) ∧
    (lfs_config_prog s block_size block off buffer size = none ∨
     lfs_config_prog s block_size block off buffer size = some 0) ∧
    (∀ e, s.write ((block * block_size + off) % U32)
        ((List.range size).map buffer) = .error e →
      lfs_config_prog s block_size block off buffer size = none) ∧
    (lfs_config_erase s block = none ∨ lfs_config_erase s block = some 0) ∧
    (∀ e, s.erase (block * BLOCK_SIZE) BLOCK_SIZE = .error e →
      lfs_config_erase s block = none) ∧
    lfs_config_sync = 0 := by
  simp only [lfs_config_read, lfs_config_prog, lfs_config_erase]
  refine ⟨?_, ?_, ?_, ?_, ?_, ?_, rfl⟩
  · cases s.read ((block * block_size + off) % U32) size <;> simp
  · intro e he
    rw [he]
  · cases s.write ((block * block_size + off) % U32)
      ((List.range size).map buffer) <;> simp
  · intro e he
    rw [he]
  · cases s.erase (block * BLOCK_SIZE) BLOCK_SIZE <;> simp
  · intro e he
    rw [he]

/-- Witness for c4_trampoline_fatal: a storage whose read fails with Io
makes the read trampoline abort (none), applying the theorem at block 1,
offset 0, size 16. -/
theorem c4_witness :
    lfs_config_read
      { read := fun _ _ => .error .Io, write := fun _ _ => .ok 0,
        erase := fun _ _ => .ok 0 } 4096 1 0 16 = none :=
  (c4_trampoline_fatal
    { read := fun _ _ => .error .Io, write := fun _ _ => .ok 0,
      erase := fun _ _ => .ok 0 } 4096 1 0 16 (fun _ => 0)).2.1
    FsError.Io rfl

/-- Claim C5: absent u32 overflow, the read trampoline forwards to
Storage.read at absolute offset block * block_size + off with a
destination region of exactly `size` bytes and returns 0 on success, and
the program trampoline forwards to Storage.write at the same offset from a
source region of exactly `size` bytes, returning 0 on success. -/
theorem c5_trampoline_forwarding (s : Storage)
    (block_size block off size : Nat) (buffer : Nat → Nat)
    (h : block * block_size + off < U32) :
    lfs_config_read s block_size block off size =
      (match s.read (block * block_size + off) size with
       | .ok _ => some 0
       | .error _ => none) ∧
    lfs_config_prog s block_size block off buffer size =
      (match s.write (block * block_size + off)
          ((List.range size).map buffer) with
       | .ok _ => some 0
       | .error _ => none) ∧
    ((List.range size).map buffer).length = size := by
  simp only [lfs_config_read, lfs_config_prog, Nat.mod_eq_of_lt h]
  simp

/-- Witness for c5_trampoline_forwarding at block 1, offset 8, size 16 on
an always-succeeding storage. -/
theorem c5_witness :
    lfs_config_read
      { read := fun _ _ => .ok 16, write := fun _ _ => .ok 16,
        erase := fun _ _ => .ok 0 } 4096 1 8 16 = some 0 :=
  Eq.trans
    ((c5_trampoline_forwarding
      { read := fun _ _ => .ok 16, write := fun _ _ => .ok 16,
        erase := fun _ _ => .ok 0 } 4096 1 8 16 (fun _ => 0)
      (by norm_num [U32])).1)
    rfl

/-- Claim C7: format and mount both rebuild the configuration record and
hand exactly that record to their engine entry point; the rebuilt record
carries the handle's own address as context, all four callbacks non-null,
the three buffer addresses owned by the handle, and the full geometry. -/
theorem c7_config_rebuild (h : HandleAddrs) (ef em : LfsConfig → Int) :
    (format h ef).1 = create_lfs_config h ∧
    (format h ef).2 = lfs_to_fserror (ef (create_lfs_config h)) ∧
    (mount h em).1 = create_lfs_config h ∧
    (mount h em).2 = lfs_to_fserror (em (create_lfs_config h)) ∧
    (create_lfs_config h).context = h.selfAddr ∧
    (create_lfs_config h).read = some CallbackId.read ∧
    (create_lfs_config h).prog = some CallbackId.prog ∧
    (create_lfs_config h).erase = some CallbackId.erase ∧
    (create_lfs_config h).sync = some CallbackId.sync ∧
    (create_lfs_config h).read_buffer = h.readBufAddr ∧
    (create_lfs_config h).prog_buffer = h.progBufAddr ∧
    (create_lfs_config h).lookahead_buffer = h.lookaheadBufAddr ∧
    (create_lfs_config h).read_size = READ_SIZE ∧
    (create_lfs_config h).prog_size = PROG_SIZE ∧
    (create_lfs_config h).block_size = BLOCK_SIZE ∧
    (create_lfs_config h).block_count = BLOCK_COUNT ∧
    (create_lfs_config h).lookahead = LOOKAHEAD :=
  ⟨rfl, rfl, rfl, rfl, rfl, rfl, rfl, rfl, rfl, rfl, rfl, rfl, rfl, rfl,
   rfl, rfl, rfl⟩

/-- Claim C9: stat and dir_read overwrite the caller's info out-parameter
unconditionally with the conversion of the engine record: the result never
depends on the previous info value, and whenever the call returns — even
with an error status — the returned info is the conversion of the engine
record, computed before the status is inspected. -/
theorem c9_info_overwritten (old : Info) (res : Int) (r : LfsInfoRec) :
    (∀ old2 : Info, stat_info_update old res r = stat_info_update old2 res r) ∧
    (∀ i rr, stat_info_update old res r = some (i, rr) →
      info_from_lfs r = some i ∧ rr = lfs_to_fserror res) ∧
    (∀ old2 : Info,
      dir_read_info_update old res r = dir_read_info_update old2 res r) ∧
    (∀ i rr, dir_read_info_update old res r = some (i, rr) →
      info_from_lfs r = some i ∧ rr = lfs_to_fserror res) := by
  refine ⟨fun old2 => rfl, ?_, fun old2 => rfl, ?_⟩ <;>
  · intro i rr hi
    simp only [stat_info_update, dir_read_info_update] at hi
    cases hr : info_from_lfs r with
    | none =>
      rw [hr] at hi
      exact absurd hi (by simp)
    | some i0 =>
      rw [hr] at hi
      have h2 := Option.some.inj hi
      have h3 : i0 = i := congrArg Prod.fst h2
      have h4 : lfs_to_fserror res = rr := congrArg Prod.snd h2
      exact ⟨congrArg Option.some h3, h4.symm⟩

/-- Witness for c9_info_overwritten: a stat whose engine status is the
error NOENT still returns the conversion of the engine record, at a
concrete prior info value and engine record with tag REG. -/
theorem c9_witness :
    info_from_lfs { type_ := 0x11, size := 4, name := [] } =
      some { entry_type := EntryType.RegularFile, size := 4,
             name := List.replicate NAME_MAX_LEN 0 } ∧
    Except.error FsError.Noent = lfs_to_fserror (-2) := by
  exact (c9_info_overwritten
    { entry_type := EntryType.Directory, size := 0, name := [] } (-2)
    { type_ := 0x11, size := 4, name := [] }).2.1
    { entry_type := EntryType.RegularFile, size := 4,
      name := List.replicate NAME_MAX_LEN 0 }
    (Except.error FsError.Noent) rfl

lemma entry_type_of_tag_reg (t : Nat) (h : t = LFS_TYPE_REG) :
    entry_type_of_tag t = some EntryType.RegularFile := by
  unfold entry_type_of_tag
  rw [if_pos h]

lemma entry_type_of_tag_dir (t : Nat) (h1 : t ≠ LFS_TYPE_REG)
    (h2 : t = LFS_TYPE_DIR) :
    entry_type_of_tag t = some EntryType.Directory := by
  unfold entry_type_of_tag
  rw [if_neg h1, if_pos h2]

lemma entry_type_of_tag_none (t : Nat) (h1 : t ≠ LFS_TYPE_REG)
    (h2 : t ≠ LFS_TYPE_DIR) :
    entry_type_of_tag t = none := by
  unfold entry_type_of_tag
  rw [if_neg h1, if_neg h2]

lemma info_from_lfs_reg (r : LfsInfoRec) (h1 : r.type_ = LFS_TYPE_REG)
    (h3 : strlen r.name ≤ NAME_MAX_LEN) :
    info_from_lfs r =
      some { entry_type := EntryType.RegularFile, size := r.size,
             name := copy_into (List.replicate NAME_MAX_LEN 0) r.name
                       (strlen r.name) } := by
  unfold info_from_lfs
  rw [entry_type_of_tag_reg r.type_ h1]
  exact if_pos h3

lemma info_from_lfs_dir (r : LfsInfoRec) (h1 : r.type_ ≠ LFS_TYPE_REG)
    (h2 : r.type_ = LFS_TYPE_DIR) (h3 : strlen r.name ≤ NAME_MAX_LEN) :
    info_from_lfs r =
      some { entry_type := EntryType.Directory, size := r.size,
             name := copy_into (List.replicate NAME_MAX_LEN 0) r.name
                       (strlen r.name) } := by
  unfold info_from_lfs
  rw [entry_type_of_tag_dir r.type_ h1 h2]
  exact if_pos h3

lemma info_from_lfs_overlong (r : LfsInfoRec)
    (h3 : ¬ strlen r.name ≤ NAME_MAX_LEN) : info_from_lfs r = none := by
  unfold info_from_lfs
  cases he : entry_type_of_tag r.type_ with
  | none => rfl
  | some et => exact if_neg h3

lemma info_from_lfs_badtag (r : LfsInfoRec) (h1 : r.type_ ≠ LFS_TYPE_REG)
    (h2 : r.type_ ≠ LFS_TYPE_DIR) : info_from_lfs r = none := by
  unfold info_from_lfs
  rw [entry_type_of_tag_none r.type_ h1 h2]

/-- Claim C10: the conversion of an engine directory-entry record yields
entry type RegularFile exactly for the tag LFS_TYPE_REG and Directory
exactly for LFS_TYPE_DIR, and panics (none) for every other tag, so stat
and dir_read abort on an unexpected entry type instead of returning an
error. -/
theorem c10_entry_type (r : LfsInfoRec) :
    (∀ i, info_from_lfs r = some i →
      ((i.entry_type = EntryType.RegularFile ↔ r.type_ = LFS_TYPE_REG) ∧
       (i.entry_type = EntryType.Directory ↔ r.type_ = LFS_TYPE_DIR))) ∧
    (r.type_ ≠ LFS_TYPE_REG → r.type_ ≠ LFS_TYPE_DIR →
      info_from_lfs r = none) ∧
    (r.type_ = LFS_TYPE_REG → strlen r.name ≤ NAME_MAX_LEN →
      ∃ i, info_from_lfs r = some i ∧
        i.entry_type = EntryType.RegularFile) ∧
    (r.type_ = LFS_TYPE_DIR → strlen r.name ≤ NAME_MAX_LEN →
      ∃ i, info_from_lfs r = some i ∧
        i.entry_type = EntryType.Directory) := by
  have hne : LFS_TYPE_REG ≠ LFS_TYPE_DIR := by decide
  refine ⟨?_, ?_, ?_, ?_⟩
  · intro i hi
    by_cases h1 : r.type_ = LFS_TYPE_REG
    · by_cases h3 : strlen r.name ≤ NAME_MAX_LEN
      · rw [info_from_lfs_reg r h1 h3] at hi
        rw [← Option.some.inj hi]
        refine ⟨⟨fun _ => h1, fun _ => rfl⟩, ?_, ?_⟩
        · intro hc
          exact EntryType.noConfusion hc
        · intro hc
          rw [h1] at hc
          exact absurd hc hne
      · rw [info_from_lfs_overlong r h3] at hi
        simp at hi
    · by_cases h2 : r.type_ = LFS_TYPE_DIR
      · by_cases h3 : strlen r.name ≤ NAME_MAX_LEN
        · rw [info_from_lfs_dir r h1 h2 h3] at hi
          rw [← Option.some.inj hi]
          refine ⟨⟨?_, ?_⟩, ⟨fun _ => h2, fun _ => rfl⟩⟩
          · intro hc
            exact EntryType.noConfusion hc
          · intro hc
            exact absurd (h2.symm.trans hc) hne.symm
        · rw [info_from_lfs_overlong r h3] at hi
          simp at hi
      · rw [info_from_lfs_badtag r h1 h2] at hi
        simp at hi
  · intro h1 h2
    exact info_from_lfs_badtag r h1 h2
  · intro h1 h3
    exact ⟨_, info_from_lfs_reg r h1 h3, rfl⟩
  · intro h2 h3
    by_cases h1 : r.type_ = LFS_TYPE_REG
    · rw [h1] at h2
      exact absurd h2 hne
    · exact ⟨_, info_from_lfs_dir r h1 h2 h3, rfl⟩

/-- Witness for c10_entry_type: the tag 0x33 is neither REG nor DIR, and
the conversion aborts (none) on it. -/
theorem c10_witness :
    info_from_lfs { type_ := 0x33, size := 0, name := [] } = none :=
  (c10_entry_type { type_ := 0x33, size := 0, name := [] }).2.1
    (by decide) (by decide)

/-- Claim C8: on a freshly formatted filesystem, for every path and byte
payload, opening with Create|ReadWrite, writing the payload, closing,
reopening with ReadWrite and reading with sufficient capacity yields
exactly the written bytes. -/
theorem c8_round_trip (p b : List Nat) (cap : Nat) (h : b.length ≤ cap) :
    write_read_round_trip p b cap = some b := by
  simp only [write_read_round_trip, file_open, lfs_file_opencfg, fsLookup,
    fsStore, lfs_file_write, lfs_file_close, lfs_file_read, flagsCreatRdwr,
    flagsRdwr, List.take_nil, List.drop_nil, List.append_nil,
    List.nil_append, List.drop_zero, Bool.false_and, Bool.and_false,
    if_true, if_false, Nat.zero_add, List.take_zero]
  simp [List.take_of_length_le h]

/-- Witness for c8_round_trip at path [102], payload [1, 2, 3] and
capacity 32. -/
theorem c8_witness : write_read_round_trip [102] [1, 2, 3] 32 =
    some [1, 2, 3] :=
  c8_round_trip [102] [1, 2, 3] 32 (by norm_num)

end LittleFs
